import Mathlib

/-!
Shallow embedding of the `react-bot-detection` library core: the telemetry
collector and behavioral scorer (`src/hooks/use-bot-detection.ts`), the
honeypot trap (`src/components/honeypot.tsx`) together with its hook-level
state (`src/hooks/use-honeypot.tsx`), and the submission coordinator
(`src/components/bot-protected-form.tsx`).

JavaScript numbers are modelled as `ℤ` for timestamps/deltas and `ℚ` for
coordinates and the derived averages/variances; strings are `String`.
-/

namespace BotDetection

/-- A recorded mouse movement sample (interface `MouseMovement`). -/
structure MouseMovement where
  x : ℚ
  y : ℚ
  timestamp : ℤ
deriving DecidableEq

/-- A recorded keydown sample (interface `TypingPattern`). -/
structure TypingPattern where
  key : String
  timestamp : ℤ
  timeSinceLastKey : ℤ
deriving DecidableEq

/-- The mutable telemetry owned by one `useBotDetection` instance:
`mouseMovements`, `hasMouseMovement`, `typingPatterns`, `lastKeyTime`,
`focusEvents` and `formStartTime`. -/
structure TelemetryState where
  mouseMovements : List MouseMovement
  hasMouseMovement : Bool
  typingPatterns : List TypingPattern
  lastKeyTime : ℤ
  focusEvents : ℕ
  formStartTime : ℤ
deriving DecidableEq

/-- Host-environment reads performed by `analyzeBehavior`:
`typeof navigator`, `navigator.webdriver`, `typeof window`,
`window.outerWidth`, `window.outerHeight`. -/
structure Env where
  navigatorDefined : Bool
  webdriver : Bool
  windowDefined : Bool
  outerWidth : ℤ
  outerHeight : ℤ
deriving DecidableEq

/-- Interface `BotDetectionStats`. -/
structure BotDetectionStats where
  mouseMovements : ℕ
  typingEvents : ℕ
  focusEvents : ℕ
  timeSpent : ℤ
deriving DecidableEq

/-- Interface `BotDetectionResult`. -/
structure BotDetectionResult where
  score : ℕ
  reasons : List String
  isBot : Bool
  stats : BotDetectionStats
  honeypotTriggered : Bool
deriving DecidableEq

/-- The initial telemetry state of a freshly mounted hook:
empty buffers, `lastKeyTime = 0`, `focusEvents = 0`. -/
def initTelemetry (formStartTime : ℤ) : TelemetryState :=
  { mouseMovements := []
    hasMouseMovement := false
    typingPatterns := []
    lastKeyTime := 0
    focusEvents := 0
    formStartTime := formStartTime }

/-- `trackMouseMovement` (use-bot-detection.ts lines 65-79): push the sample,
set the flag, and `shift` the buffer when its length exceeds 50. -/
def trackMouseMovement (s : TelemetryState) (x y : ℚ) (now : ℤ) : TelemetryState :=
  let ms := s.mouseMovements ++ [⟨x, y, now⟩]
  { s with
    mouseMovements := if ms.length > 50 then ms.tail else ms
    hasMouseMovement := true }

/-- `trackKeyPress` (use-bot-detection.ts lines 82-99): the delta is
`now - lastKeyTime.current`, where `lastKeyTime` starts at 0; push the
pattern, update `lastKeyTime`, `shift` beyond capacity 100. -/
def trackKeyPress (s : TelemetryState) (key : String) (now : ℤ) : TelemetryState :=
  let ps := s.typingPatterns ++ [⟨key, now, now - s.lastKeyTime⟩]
  { s with
    typingPatterns := if ps.length > 100 then ps.tail else ps
    lastKeyTime := now }

/-- `handleFieldFocus` (use-bot-detection.ts lines 213-215). -/
def handleFieldFocus (s : TelemetryState) : TelemetryState :=
  { s with focusEvents := s.focusEvents + 1 }

/-- Run a sequence of keydown events (key, timestamp) through `trackKeyPress`. -/
def processKeyEvents (s : TelemetryState) (es : List (String × ℤ)) : TelemetryState :=
  es.foldl (fun s e => trackKeyPress s e.1 e.2) s

/-- The key samples produced by a run of `trackKeyPress` over a list of
events, given the previous `lastKeyTime`: each sample's delta is its
timestamp minus the previous event's timestamp (`prev` for the first). -/
def keySamples (prev : ℤ) : List (String × ℤ) → List TypingPattern
  | [] => []
  | e :: es => ⟨e.1, e.2, e.2 - prev⟩ :: keySamples e.2 es

/-- `Array.prototype.slice(-n)`: the most recent at-most-`n` elements. -/
def lastN (n : ℕ) (l : List α) : List α := l.drop (l.length - n)

/-- The pairwise Manhattan distances from `prev` through the list. -/
def consecDistances (prev : MouseMovement) : List MouseMovement → List ℚ
  | [] => []
  | m :: ms => (|m.x - prev.x| + |m.y - prev.y|) :: consecDistances m ms

/-- The `variations` array of `analyzeBehavior` (lines 124-128): index 0 maps
to 0, index `i > 0` maps to the Manhattan distance from sample `i-1`. -/
def consecutiveVariations : List MouseMovement → List ℚ
  | [] => []
  | m :: ms => 0 :: consecDistances m ms

/-- `avgVariation` (lines 130-131): sum of `variations` divided by its
length, which equals the number of samples in the window. -/
def avgVariation (movements : List MouseMovement) : ℚ :=
  (consecutiveVariations movements).sum / ((consecutiveVariations movements).length : ℚ)

/-- Follows the spec's words, for comparison with `avgVariation`: the
"average of consecutive Manhattan distances" of a window of N samples is the
mean of the N-1 pairwise distances (no zero entry for the first sample). -/
def specAvgConsecutiveManhattan : List MouseMovement → ℚ
  | [] => 0
  | m :: ms => (consecDistances m ms).sum / ((consecDistances m ms).length : ℚ)

/-- The `intervals` array (lines 140-143): deltas of the most recent ≤ 20 key
samples, keeping those strictly between 0 and 1000. -/
def typingIntervals (s : TelemetryState) : List ℤ :=
  ((lastN 20 s.typingPatterns).map TypingPattern.timeSinceLastKey).filter
    (fun t => decide (0 < t ∧ t < 1000))

/-- `avgInterval` (lines 146-147). -/
def listAvg (l : List ℤ) : ℚ := (l.sum : ℚ) / (l.length : ℚ)

/-- `variance` (lines 148-151): mean of squared deviations from `listAvg`. -/
def listVariance (l : List ℤ) : ℚ :=
  (l.map (fun t => ((t : ℚ) - listAvg l) ^ 2)).sum / (l.length : ℚ)

/-- Check 1 of `analyzeBehavior` (lines 117-136): R1, else possibly R2.
Returns the score contribution and the reasons pushed. -/
def mouseCheck (s : TelemetryState) : ℕ × List String :=
  if s.hasMouseMovement = false ∨ s.mouseMovements.length < 5 then
    (30, ["No natural mouse movement detected"])
  else if avgVariation (lastN 20 s.mouseMovements) < 5 then
    (20, ["Unnatural mouse movement patterns"])
  else (0, [])

/-- Check 2 of `analyzeBehavior` (lines 139-165): R3 and R4, gated by
`typingPatterns.length > 10` and `intervals.length > 5`. -/
def typingCheck (s : TelemetryState) : ℕ × List String :=
  if s.typingPatterns.length > 10 then
    if (typingIntervals s).length > 5 then
      ((if listVariance (typingIntervals s) < 100 then 15 else 0) +
        (if listAvg (typingIntervals s) < 50 then 20 else 0),
       (if listVariance (typingIntervals s) < 100 then
          ["Unnaturally consistent typing pattern"] else []) ++
        (if listAvg (typingIntervals s) < 50 then
          ["Superhuman typing speed detected"] else []))
    else (0, [])
  else (0, [])

/-- Check 3 of `analyzeBehavior` (lines 168-175): R5, form filled too fast. -/
def speedCheck (totalTime : ℤ) : ℕ × List String :=
  if totalTime < 2000 then (40, ["Form filled too quickly"]) else (0, [])

/-- Check 4 of `analyzeBehavior` (lines 178-181): R6, focus events. -/
def focusCheck (focusEvents : ℕ) : ℕ × List String :=
  if focusEvents < 2 then (15, ["Insufficient focus interactions"]) else (0, [])

/-- Check 5 of `analyzeBehavior` (lines 184-187): R7, `navigator.webdriver`. -/
def webdriverCheck (env : Env) : ℕ × List String :=
  if env.navigatorDefined = true ∧ env.webdriver = true then
    (25, ["Automated browser detected"])
  else (0, [])

/-- Check 6 of `analyzeBehavior` (lines 190-196): R8, zero outer viewport. -/
def headlessCheck (env : Env) : ℕ × List String :=
  if env.windowDefined = true ∧ (env.outerWidth = 0 ∨ env.outerHeight = 0) then
    (35, ["Headless browser indicators"])
  else (0, [])

/-- The accumulated score of `analyzeBehavior`: the checks run in order, each
adding its contribution to the mutable `score`. -/
def behaviorScore (s : TelemetryState) (currentTime : ℤ) (env : Env) : ℕ :=
  (mouseCheck s).1 + (typingCheck s).1 + (speedCheck (currentTime - s.formStartTime)).1 +
    (focusCheck s.focusEvents).1 + (webdriverCheck env).1 + (headlessCheck env).1

/-- The accumulated `reasons` of `analyzeBehavior`: each check pushes its
reason strings in order. -/
def behaviorReasons (s : TelemetryState) (currentTime : ℤ) (env : Env) : List String :=
  (mouseCheck s).2 ++ (typingCheck s).2 ++ (speedCheck (currentTime - s.formStartTime)).2 ++
    (focusCheck s.focusEvents).2 ++ (webdriverCheck env).2 ++ (headlessCheck env).2

/-- `analyzeBehavior` (use-bot-detection.ts lines 113-210). -/
def analyzeBehavior (s : TelemetryState) (currentTime : ℤ) (env : Env) : BotDetectionResult :=
  { score := behaviorScore s currentTime env
    reasons := behaviorReasons s currentTime env
    isBot := decide (50 ≤ behaviorScore s currentTime env)
    stats :=
      { mouseMovements := s.mouseMovements.length
        typingEvents := s.typingPatterns.length
        focusEvents := s.focusEvents
        timeSpent := currentTime - s.formStartTime }
    honeypotTriggered := false }

/-- JavaScript `String.prototype.trim()`: strip leading and trailing
whitespace. -/
def jsTrim (s : String) : String :=
  ⟨((s.data.dropWhile Char.isWhitespace).reverse.dropWhile Char.isWhitespace).reverse⟩

/-- State of one `Honeypot` component instance: the `hasTriggered` ref and
the number of `onBotDetected` invocations so far. -/
structure HoneypotState where
  hasTriggered : Bool
  callbackCount : ℕ
deriving DecidableEq

/-- A fresh `Honeypot` instance. -/
def initHoneypot : HoneypotState := ⟨false, 0⟩

/-- `Honeypot.handleFieldChange` (honeypot.tsx lines 46-55): latch and invoke
the callback when the trimmed value is non-empty and the trap is un-latched. -/
def handleFieldChange (s : HoneypotState) (value : String) : HoneypotState :=
  if jsTrim value ≠ "" ∧ s.hasTriggered = false then
    { hasTriggered := true, callbackCount := s.callbackCount + 1 }
  else s

/-- Run a sequence of change events (field name, value) through the shared
`handleFieldChange` handler; the handler reads only the value. -/
def processChanges (s : HoneypotState) (events : List (String × String)) : HoneypotState :=
  events.foldl (fun s e => handleFieldChange s e.2) s

/-- Combined state of the `useHoneypot` hook and its `Honeypot` component:
the component's `hasTriggered` ref plus the hook's `isBotDetected` and
`botScore` states, and the callback invocation count. -/
structure HookTrapState where
  hasTriggered : Bool
  isBotDetected : Bool
  botScore : ℕ
  callbackCount : ℕ
deriving DecidableEq

/-- Events hitting the honeypot subsystem: a change to a honeypot field
(field name, value), or `resetDetection` from the hook API. -/
inductive HpEvent where
  | fieldChange : String → String → HpEvent
  | resetDetection : HpEvent
deriving DecidableEq

/-- One step of the combined hook/trap system: a qualifying field change runs
`handleFieldChange`, whose callback is `handleBotDetected` (use-honeypot.tsx
lines 41-44: set `isBotDetected`, add 50); `resetDetection` (lines 46-49)
clears only the hook state, not the component's `hasTriggered` ref. -/
def hpStep (s : HookTrapState) : HpEvent → HookTrapState
  | .fieldChange _ v =>
      if jsTrim v ≠ "" ∧ s.hasTriggered = false then
        { hasTriggered := true
          isBotDetected := true
          botScore := s.botScore + 50
          callbackCount := s.callbackCount + 1 }
      else s
  | .resetDetection => { s with isBotDetected := false, botScore := 0 }

/-- Run the combined hook/trap system from its initial state. -/
def hpRun (events : List HpEvent) : HookTrapState :=
  events.foldl hpStep ⟨false, false, 0, 0⟩

/-- The merged detection result computed in `handleSubmit`
(bot-protected-form.tsx lines 505-521). -/
def mergeDetection (behaviorResult : BotDetectionResult) (honeypotTriggered : Bool) :
    BotDetectionResult :=
  { score := behaviorResult.score + (if honeypotTriggered then 100 else 0)
    reasons := behaviorResult.reasons ++
      (if honeypotTriggered then ["Honeypot field filled"] else [])
    isBot := decide (50 ≤ behaviorResult.score + (if honeypotTriggered then 100 else 0)) ||
      honeypotTriggered
    stats := behaviorResult.stats
    honeypotTriggered := honeypotTriggered }

/-- Observable outcome of one `handleSubmit` run: the final `isSubmitting`
flag, the console-error log entries, the callbacks invoked (with their
arguments), and any error propagated to the rendering layer. -/
structure SubmitOutcome where
  isSubmitting : Bool
  loggedErrors : List String
  onBotDetectedCalls : List BotDetectionResult
  onSubmitCalls : List BotDetectionResult
  raised : Option String
deriving DecidableEq

/-- `handleSubmit` (bot-protected-form.tsx lines 498-537): merge, branch on
`isBot`, otherwise invoke the caller's `onSubmit`; a rejection is caught and
logged with the fixed tag, and `finally` clears `isSubmitting`. -/
def handleSubmit (behaviorResult : BotDetectionResult) (honeypotTriggered : Bool)
    (onSubmitOutcome : Except String Unit) : SubmitOutcome :=
  let botDetectionResult := mergeDetection behaviorResult honeypotTriggered
  if botDetectionResult.isBot then
    { isSubmitting := false
      loggedErrors := []
      onBotDetectedCalls := [botDetectionResult]
      onSubmitCalls := []
      raised := none }
  else
    match onSubmitOutcome with
    | .ok _ =>
        { isSubmitting := false
          loggedErrors := []
          onBotDetectedCalls := []
          onSubmitCalls := [botDetectionResult]
          raised := none }
    | .error e =>
        { isSubmitting := false
          loggedErrors := ["Form submission error: " ++ e]
          onBotDetectedCalls := []
          onSubmitCalls := [botDetectionResult]
          raised := none }

/-- Weight of each rule, keyed by its reason text. -/
def ruleWeight (r : String) : ℕ :=
  if r = "No natural mouse movement detected" then 30
  else if r = "Unnatural mouse movement patterns" then 20
  else if r = "Unnaturally consistent typing pattern" then 15
  else if r = "Superhuman typing speed detected" then 20
  else if r = "Form filled too quickly" then 40
  else if r = "Insufficient focus interactions" then 15
  else if r = "Automated browser detected" then 25
  else if r = "Headless browser indicators" then 35
  else 0

/-- Sum of the weights of the rules named in a reasons list. -/
def sumWeights (reasons : List String) : ℕ := (reasons.map ruleWeight).sum

/-- All eight reason texts in evaluation order R1, R2, R3, R4, R5, R6, R7, R8. -/
def masterReasons : List String :=
  ["No natural mouse movement detected",
   "Unnatural mouse movement patterns",
   "Unnaturally consistent typing pattern",
   "Superhuman typing speed detected",
   "Form filled too quickly",
   "Insufficient focus interactions",
   "Automated browser detected",
   "Headless browser indicators"]

/-! Sample concrete values used by witnesses. -/

/-- An all-zero stats record. -/
def zeroStats : BotDetectionStats := ⟨0, 0, 0, 0⟩

/-- A behavior result with score 0 and no reasons. -/
def zeroBehaviorResult : BotDetectionResult := ⟨0, [], false, zeroStats, false⟩

/-! Claim C1: the submission-time merge. -/

/-- Claim C1: at submission time the coordinator computes
`finalScore = behaviorResult.score + (honeypotTriggered ? 100 : 0)` and
`finalIsBot = finalScore ≥ 50 OR honeypotTriggered`; consequently a triggered
honeypot forces `finalIsBot = true` for every behavior score, including 0. -/
theorem c1_merge_dispositive (br : BotDetectionResult) (trig : Bool) :
    (mergeDetection br trig).score = br.score + (if trig then 100 else 0) ∧
    ((mergeDetection br trig).isBot =
      (decide (50 ≤ br.score + (if trig then 100 else 0)) || trig)) ∧
    (trig = true → (mergeDetection br trig).isBot = true) := by
  refine ⟨rfl, rfl, fun h => ?_⟩
  simp [mergeDetection, h]

/-- Claim C1 witness: a behavior score of 0 with the honeypot triggered is
still flagged as a bot, with final score 100. -/
theorem c1_merge_dispositive_witness :
    (mergeDetection zeroBehaviorResult true).score = 0 + (if true then 100 else 0) ∧
    (mergeDetection zeroBehaviorResult true).isBot = true :=
  ⟨(c1_merge_dispositive zeroBehaviorResult true).1,
   (c1_merge_dispositive zeroBehaviorResult true).2.2 rfl⟩

/-! Claim C2: the honeypot trap latches and fires at most once. -/

/-- Once the trap has latched, further change events leave the state alone. -/
theorem processChanges_of_triggered (events : List (String × String)) :
    ∀ s : HoneypotState, s.hasTriggered = true → processChanges s events = s := by
  induction events with
  | nil => intro s _; rfl
  | cons e es ih =>
      intro s h
      have hstep : handleFieldChange s e.2 = s := by
        simp [handleFieldChange, h]
      show processChanges (handleFieldChange s e.2) es = s
      rw [hstep, ih s h]

/-- From an un-latched state, the callback count rises by exactly one if some
event in the sequence carries a non-whitespace value, and by zero otherwise. -/
theorem processChanges_count_untriggered (events : List (String × String)) :
    ∀ s : HoneypotState, s.hasTriggered = false →
      (processChanges s events).callbackCount =
        s.callbackCount + (if ∃ e ∈ events, jsTrim e.2 ≠ "" then 1 else 0) := by
  induction events with
  | nil => intro s _; simp [processChanges]
  | cons e es ih =>
      intro s h
      by_cases hv : jsTrim e.2 = ""
      · have hstep : handleFieldChange s e.2 = s := by
          simp [handleFieldChange, hv]
        have hcond : (∃ x ∈ e :: es, jsTrim x.2 ≠ "") ↔ ∃ x ∈ es, jsTrim x.2 ≠ "" := by
          rw [List.exists_mem_cons_iff]
          simp [hv]
        show (processChanges (handleFieldChange s e.2) es).callbackCount = _
        rw [hstep, ih s h]
        by_cases hq : ∃ x ∈ es, jsTrim x.2 ≠ ""
        · rw [if_pos hq, if_pos (hcond.mpr hq)]
        · rw [if_neg hq, if_neg (fun hc => hq (hcond.mp hc))]
      · have hstep : handleFieldChange s e.2 =
            ⟨true, s.callbackCount + 1⟩ := by
          simp [handleFieldChange, hv, h]
        show (processChanges (handleFieldChange s e.2) es).callbackCount = _
        rw [hstep, processChanges_of_triggered es _ rfl,
          if_pos ((List.exists_mem_cons_iff
            (fun x : String × String => jsTrim x.2 ≠ "") e es).mpr (Or.inl hv))]

/-- Claim C2: over every sequence of honeypot field change events and every
prefix of it, the bot-detected callback has run exactly once as soon as some
value with non-empty trim has arrived, and zero times before that; in
particular whitespace-only sequences never invoke it, and later changes after
the first qualifying one never re-invoke it. -/
theorem c2_honeypot_latch_once (events : List (String × String)) (n : ℕ) :
    (processChanges initHoneypot (events.take n)).callbackCount =
      if ∃ e ∈ events.take n, jsTrim e.2 ≠ "" then 1 else 0 := by
  simpa [initHoneypot] using
    processChanges_count_untriggered (events.take n) initHoneypot rfl

/-! Claim C3: key-press deltas. -/

/-- The head of a `keySamples` run records its timestamp minus `prev`. -/
theorem keySamples_head_delta (es : List (String × ℤ)) (prev : ℤ) :
    ∀ p ∈ (keySamples prev es).head?, p.timeSinceLastKey = p.timestamp - prev := by
  cases es <;> simp [keySamples]

/-- Along a `keySamples` run, every later sample's delta is its timestamp
minus the immediately preceding sample's timestamp. -/
theorem keySamples_chain (es : List (String × ℤ)) : ∀ prev : ℤ,
    List.Chain' (fun a b : TypingPattern =>
      b.timeSinceLastKey = b.timestamp - a.timestamp) (keySamples prev es) := by
  induction es with
  | nil => intro prev; simp [keySamples]
  | cons e es ih =>
      intro prev
      rw [keySamples, List.chain'_cons']
      exact ⟨fun y hy => by simpa using keySamples_head_delta es e.2 y hy, ih e.2⟩

/-- Within buffer capacity, processing key events appends exactly the
`keySamples` of the event list. -/
theorem processKeyEvents_patterns_eq (es : List (String × ℤ)) :
    ∀ s : TelemetryState, s.typingPatterns.length + es.length ≤ 100 →
      (processKeyEvents s es).typingPatterns =
        s.typingPatterns ++ keySamples s.lastKeyTime es := by
  induction es with
  | nil => intro s _; simp [processKeyEvents, keySamples]
  | cons e es ih =>
      intro s h
      have hstep : trackKeyPress s e.1 e.2 =
          { s with
            typingPatterns := s.typingPatterns ++ [⟨e.1, e.2, e.2 - s.lastKeyTime⟩]
            lastKeyTime := e.2 } := by
        simp [trackKeyPress]
        intro hc
        exfalso
        simp at h
        omega
      show (processKeyEvents (trackKeyPress s e.1 e.2) es).typingPatterns = _
      rw [hstep, ih _ (by simp at h ⊢; omega)]
      simp [keySamples]

/-- Claim C3 as stated is false on the code: `lastKeyTime` initializes to 0,
so a first key event at timestamp 5 records delta 5, not 0. -/
theorem c3_counterexample :
    (processKeyEvents (initTelemetry 0) [("a", 5)]).typingPatterns.map
        TypingPattern.timeSinceLastKey = [5] ∧
    ¬ (processKeyEvents (initTelemetry 0) [("a", 5)]).typingPatterns.map
        TypingPattern.timeSinceLastKey = [0] := by
  constructor <;> decide

/-- Claim C3 amended: for sessions within the 100-event buffer capacity, the
first recorded key event's delta equals its own timestamp (timestamp minus
the initial `lastKeyTime` of 0), and every subsequent key event's delta
equals its timestamp minus the timestamp of the immediately preceding key
event in arrival order. -/
theorem c3_amended_first_delta (es : List (String × ℤ)) (h : es.length ≤ 100) :
    (∀ p ∈ (processKeyEvents (initTelemetry 0) es).typingPatterns.head?,
        p.timeSinceLastKey = p.timestamp) ∧
    List.Chain' (fun a b : TypingPattern =>
        b.timeSinceLastKey = b.timestamp - a.timestamp)
      (processKeyEvents (initTelemetry 0) es).typingPatterns := by
  have heq := processKeyEvents_patterns_eq es (initTelemetry 0)
    (by simpa [initTelemetry] using h)
  rw [heq]
  simp only [initTelemetry, List.nil_append]
  exact ⟨fun p hp => by simpa using keySamples_head_delta es 0 p hp,
    keySamples_chain es 0⟩

/-- Claim C3 amended witness: two key events at timestamps 5 and 12 record
deltas 5 and 7 = 12 - 5. -/
theorem c3_amended_witness :
    ([("a", (5 : ℤ)), ("b", 12)] : List (String × ℤ)).length ≤ 100 ∧
    List.Chain' (fun a b : TypingPattern =>
        b.timeSinceLastKey = b.timestamp - a.timestamp)
      (processKeyEvents (initTelemetry 0) [("a", 5), ("b", 12)]).typingPatterns :=
  ⟨by decide, (c3_amended_first_delta [("a", 5), ("b", 12)] (by decide)).2⟩

/-! Claim C4: resetting after a honeypot trigger. -/

/-- Claim C4 fails on the code: after a trigger and a `resetDetection`, a
subsequent fresh non-whitespace fill does NOT invoke the callback again (the
count stays at 1), because `resetDetection` clears only the hook state while
the component's `hasTriggered` ref stays latched. -/
theorem c4_counterexample :
    (hpRun [.fieldChange "hp_website_url" "spam", .resetDetection,
      .fieldChange "hp_contact_info" "spam-again"]).callbackCount = 1 ∧
    (hpRun [.fieldChange "hp_website_url" "spam", .resetDetection,
      .fieldChange "hp_contact_info" "spam-again"]).isBotDetected = false := by
  constructor <;> decide

/-- Claim C4 amended: `resetDetection` restores the hook-level flag
`isBotDetected` to false and the score to 0, but it does not reset the trap
component's `hasTriggered` latch, so a subsequent fresh non-whitespace fill
does not re-invoke the bot-detected callback. -/
theorem c4_amended_reset_keeps_latch (f₁ v₁ f₂ v₂ : String) (h : jsTrim v₁ ≠ "") :
    (hpRun [.fieldChange f₁ v₁, .resetDetection]).isBotDetected = false ∧
    (hpRun [.fieldChange f₁ v₁, .resetDetection]).botScore = 0 ∧
    (hpRun [.fieldChange f₁ v₁, .resetDetection]).hasTriggered = true ∧
    (hpRun [.fieldChange f₁ v₁, .resetDetection]).callbackCount = 1 ∧
    (hpStep (hpRun [.fieldChange f₁ v₁, .resetDetection])
      (.fieldChange f₂ v₂)).callbackCount = 1 := by
  simp [hpRun, hpStep, h]

/-- Claim C4 amended witness: instantiated with the default field names and
the value "spam". -/
theorem c4_amended_witness :
    jsTrim "spam" ≠ "" ∧
    ((hpRun [.fieldChange "hp_website_url" "spam", .resetDetection]).isBotDetected = false ∧
     (hpRun [.fieldChange "hp_website_url" "spam", .resetDetection]).botScore = 0 ∧
     (hpRun [.fieldChange "hp_website_url" "spam", .resetDetection]).hasTriggered = true ∧
     (hpRun [.fieldChange "hp_website_url" "spam", .resetDetection]).callbackCount = 1 ∧
     (hpStep (hpRun [.fieldChange "hp_website_url" "spam", .resetDetection])
       (.fieldChange "hp_fax_number" "x")).callbackCount = 1) :=
  ⟨by decide,
   c4_amended_reset_keeps_latch "hp_website_url" "spam" "hp_fax_number" "x" (by decide)⟩

/-! Claim C9: submit-handler errors are caught and recovered. -/

/-- Claim C9: when the merged verdict is not a bot and the caller-supplied
submit handler raises, the coordinator catches the error, logs it with the
fixed tag "Form submission error:", clears the submitting flag so the
trigger re-enables, and does not re-throw to the caller. -/
theorem c9_submit_error_recovery (br : BotDetectionResult) (e : String)
    (h : br.score < 50) :
    handleSubmit br false (Except.error e) =
      { isSubmitting := false
        loggedErrors := ["Form submission error: " ++ e]
        onBotDetectedCalls := []
        onSubmitCalls := [mergeDetection br false]
        raised := none } := by
  have hb : (mergeDetection br false).isBot = false := by
    simp [mergeDetection]
    omega
  simp [handleSubmit, hb]

/-- Claim C9 witness: a zero-score behavior result with a failing handler
yields a cleared submitting flag, one log entry, and no raised error. -/
theorem c9_submit_error_recovery_witness :
    zeroBehaviorResult.score < 50 ∧
    handleSubmit zeroBehaviorResult false (Except.error "Network error") =
      { isSubmitting := false
        loggedErrors := ["Form submission error: " ++ "Network error"]
        onBotDetectedCalls := []
        onSubmitCalls := [mergeDetection zeroBehaviorResult false]
        raised := none } :=
  ⟨by decide, c9_submit_error_recovery zeroBehaviorResult "Network error" (by decide)⟩

/-! Claim C10: structure of every `ScoreResult`. -/

/-- The mouse check yields one of three outcomes. -/
theorem mouseCheck_cases (s : TelemetryState) :
    mouseCheck s = (30, ["No natural mouse movement detected"]) ∨
    mouseCheck s = (20, ["Unnatural mouse movement patterns"]) ∨
    mouseCheck s = (0, []) := by
  unfold mouseCheck
  split_ifs <;> simp

/-- The typing check yields one of four outcomes. -/
theorem typingCheck_cases (s : TelemetryState) :
    typingCheck s = (35, ["Unnaturally consistent typing pattern",
      "Superhuman typing speed detected"]) ∨
    typingCheck s = (15, ["Unnaturally consistent typing pattern"]) ∨
    typingCheck s = (20, ["Superhuman typing speed detected"]) ∨
    typingCheck s = (0, []) := by
  unfold typingCheck
  split_ifs <;> simp

/-- The speed check yields one of two outcomes. -/
theorem speedCheck_cases (t : ℤ) :
    speedCheck t = (40, ["Form filled too quickly"]) ∨ speedCheck t = (0, []) := by
  unfold speedCheck
  split_ifs <;> simp

/-- The focus check yields one of two outcomes. -/
theorem focusCheck_cases (n : ℕ) :
    focusCheck n = (15, ["Insufficient focus interactions"]) ∨ focusCheck n = (0, []) := by
  unfold focusCheck
  split_ifs <;> simp

/-- The webdriver check yields one of two outcomes. -/
theorem webdriverCheck_cases (env : Env) :
    webdriverCheck env = (25, ["Automated browser detected"]) ∨
    webdriverCheck env = (0, []) := by
  unfold webdriverCheck
  split_ifs <;> simp

/-- The headless check yields one of two outcomes. -/
theorem headlessCheck_cases (env : Env) :
    headlessCheck env = (35, ["Headless browser indicators"]) ∨
    headlessCheck env = (0, []) := by
  unfold headlessCheck
  split_ifs <;> simp

/-- Claim C10: for every `ScoreResult` returned by the behavior scorer, the
score equals the sum of the weights of exactly the rules whose reason
strings appear, the reasons form a sublist of the fixed evaluation order
R1, R2, R3, R4, R5, R6, R7, R8 (hence ordered with no duplicates), R1 and
R2 never appear together, and the behavior-only score is at most 180. -/
theorem c10_score_reasons_invariant (s : TelemetryState) (t : ℤ) (env : Env) :
    (analyzeBehavior s t env).score = sumWeights (analyzeBehavior s t env).reasons ∧
    (analyzeBehavior s t env).reasons.Sublist masterReasons ∧
    ¬("No natural mouse movement detected" ∈ (analyzeBehavior s t env).reasons ∧
      "Unnatural mouse movement patterns" ∈ (analyzeBehavior s t env).reasons) ∧
    (analyzeBehavior s t env).score ≤ 180 := by
  simp only [analyzeBehavior, behaviorScore, behaviorReasons]
  rcases mouseCheck_cases s with hm | hm | hm <;>
    rcases typingCheck_cases s with ht | ht | ht | ht <;>
    rcases speedCheck_cases (t - s.formStartTime) with hsp | hsp <;>
    rcases focusCheck_cases s.focusEvents with hf | hf <;>
    rcases webdriverCheck_cases env with hw | hw <;>
    rcases headlessCheck_cases env with hh | hh <;>
    rw [hm, ht, hsp, hf, hw, hh] <;> decide

/-! Membership localization for individual reasons. -/

/-- A reason is reported iff some check emitted it. -/
theorem mem_behaviorReasons (s : TelemetryState) (t : ℤ) (env : Env) (x : String) :
    x ∈ (analyzeBehavior s t env).reasons ↔
      x ∈ (mouseCheck s).2 ∨ x ∈ (typingCheck s).2 ∨
      x ∈ (speedCheck (t - s.formStartTime)).2 ∨ x ∈ (focusCheck s.focusEvents).2 ∨
      x ∈ (webdriverCheck env).2 ∨ x ∈ (headlessCheck env).2 := by
  simp [analyzeBehavior, behaviorReasons]

/-- Reasons emitted by the mouse check are among its two strings. -/
theorem mouseCheck_mem_possible (s : TelemetryState) (x : String)
    (hx : x ∈ (mouseCheck s).2) :
    x = "No natural mouse movement detected" ∨
    x = "Unnatural mouse movement patterns" := by
  rcases mouseCheck_cases s with h | h | h <;> rw [h] at hx <;> simp at hx
  all_goals tauto

/-- Reasons emitted by the typing check are among its two strings. -/
theorem typingCheck_mem_possible (s : TelemetryState) (x : String)
    (hx : x ∈ (typingCheck s).2) :
    x = "Unnaturally consistent typing pattern" ∨
    x = "Superhuman typing speed detected" := by
  rcases typingCheck_cases s with h | h | h | h <;> rw [h] at hx <;> simp at hx
  all_goals tauto

/-- The speed check only ever emits its own string. -/
theorem speedCheck_mem_possible (t : ℤ) (x : String)
    (hx : x ∈ (speedCheck t).2) : x = "Form filled too quickly" := by
  rcases speedCheck_cases t with h | h <;> rw [h] at hx <;> simp at hx
  all_goals tauto

/-- The focus check only ever emits its own string. -/
theorem focusCheck_mem_possible (n : ℕ) (x : String)
    (hx : x ∈ (focusCheck n).2) : x = "Insufficient focus interactions" := by
  rcases focusCheck_cases n with h | h <;> rw [h] at hx <;> simp at hx
  all_goals tauto

/-- The webdriver check only ever emits its own string. -/
theorem webdriverCheck_mem_possible (env : Env) (x : String)
    (hx : x ∈ (webdriverCheck env).2) : x = "Automated browser detected" := by
  rcases webdriverCheck_cases env with h | h <;> rw [h] at hx <;> simp at hx
  all_goals tauto

/-- The headless check only ever emits its own string. -/
theorem headlessCheck_mem_possible (env : Env) (x : String)
    (hx : x ∈ (headlessCheck env).2) : x = "Headless browser indicators" := by
  rcases headlessCheck_cases env with h | h <;> rw [h] at hx <;> simp at hx
  all_goals tauto

/-- When R1 does not fire, the mouse check emits R2's reason iff the code's
`avgVariation` of the most recent ≤ 20 samples is strictly below 5. -/
theorem r2_iff_mouseCheck (s : TelemetryState)
    (h : ¬ (s.hasMouseMovement = false ∨ s.mouseMovements.length < 5)) :
    "Unnatural mouse movement patterns" ∈ (mouseCheck s).2 ↔
      avgVariation (lastN 20 s.mouseMovements) < 5 := by
  unfold mouseCheck
  rw [if_neg h]
  split_ifs with hlt <;> simp [hlt]

/-- Under the typing gate, R3's reason is emitted iff the variance of the
filtered deltas is strictly below 100. -/
theorem r3_iff_typingCheck (s : TelemetryState)
    (h1 : s.typingPatterns.length > 10) (h2 : (typingIntervals s).length > 5) :
    "Unnaturally consistent typing pattern" ∈ (typingCheck s).2 ↔
      listVariance (typingIntervals s) < 100 := by
  unfold typingCheck
  rw [if_pos h1, if_pos h2]
  split_ifs <;> simp_all

/-- Under the typing gate, R4's reason is emitted iff the mean of the
filtered deltas is strictly below 50. -/
theorem r4_iff_typingCheck (s : TelemetryState)
    (h1 : s.typingPatterns.length > 10) (h2 : (typingIntervals s).length > 5) :
    "Superhuman typing speed detected" ∈ (typingCheck s).2 ↔
      listAvg (typingIntervals s) < 50 := by
  unfold typingCheck
  rw [if_pos h1, if_pos h2]
  split_ifs <;> simp_all

/-! Concrete states used by counterexamples and witnesses. -/

/-- A benign environment: navigator present without webdriver, window with a
normal viewport. -/
def benignEnv : Env := ⟨true, false, true, 1024, 768⟩

/-- Five mouse samples in a straight line with consecutive Manhattan
distances of 6, plus enough focus events and age to isolate R2. -/
def c6state : TelemetryState :=
  { mouseMovements := [⟨0, 0, 0⟩, ⟨6, 0, 100⟩, ⟨12, 0, 200⟩, ⟨18, 0, 300⟩, ⟨24, 0, 400⟩]
    hasMouseMovement := true
    typingPatterns := []
    lastKeyTime := 0
    focusEvents := 2
    formStartTime := 0 }

/-- Exactly 10 key samples, each with a 30 ms delta. -/
def c5state : TelemetryState :=
  { mouseMovements := []
    hasMouseMovement := false
    typingPatterns :=
      [⟨"a", 30, 30⟩, ⟨"a", 60, 30⟩, ⟨"a", 90, 30⟩, ⟨"a", 120, 30⟩, ⟨"a", 150, 30⟩,
       ⟨"a", 180, 30⟩, ⟨"a", 210, 30⟩, ⟨"a", 240, 30⟩, ⟨"a", 270, 30⟩, ⟨"a", 300, 30⟩]
    lastKeyTime := 300
    focusEvents := 2
    formStartTime := 0 }

/-- Eleven key samples, each with a 30 ms delta. -/
def c5stateB : TelemetryState :=
  { mouseMovements := []
    hasMouseMovement := false
    typingPatterns :=
      [⟨"a", 30, 30⟩, ⟨"a", 60, 30⟩, ⟨"a", 90, 30⟩, ⟨"a", 120, 30⟩, ⟨"a", 150, 30⟩,
       ⟨"a", 180, 30⟩, ⟨"a", 210, 30⟩, ⟨"a", 240, 30⟩, ⟨"a", 270, 30⟩, ⟨"a", 300, 30⟩,
       ⟨"a", 330, 30⟩]
    lastKeyTime := 330
    focusEvents := 2
    formStartTime := 0 }

/-- Eleven key samples, each with a 50 ms delta, so the filtered mean is
exactly 50. -/
def c7state : TelemetryState :=
  { mouseMovements := []
    hasMouseMovement := false
    typingPatterns :=
      [⟨"a", 50, 50⟩, ⟨"a", 100, 50⟩, ⟨"a", 150, 50⟩, ⟨"a", 200, 50⟩, ⟨"a", 250, 50⟩,
       ⟨"a", 300, 50⟩, ⟨"a", 350, 50⟩, ⟨"a", 400, 50⟩, ⟨"a", 450, 50⟩, ⟨"a", 500, 50⟩,
       ⟨"a", 550, 50⟩]
    lastKeyTime := 550
    focusEvents := 2
    formStartTime := 0 }

/-! Claim C5: the R3/R4 gate. -/

/-- Claim C5 fails on the code: a snapshot with exactly 10 key samples, all
10 of whose deltas qualify (variance 0 < 100, mean 30 < 50), is NOT scored
by R3/R4 — the code's gate is `typingPatterns.length > 10`, strictly. -/
theorem c5_counterexample :
    c5state.typingPatterns.length = 10 ∧
    5 < (typingIntervals c5state).length ∧
    listVariance (typingIntervals c5state) < 100 ∧
    listAvg (typingIntervals c5state) < 50 ∧
    "Unnaturally consistent typing pattern" ∉
      (analyzeBehavior c5state 5000 benignEnv).reasons ∧
    "Superhuman typing speed detected" ∉
      (analyzeBehavior c5state 5000 benignEnv).reasons := by
  refine ⟨by decide, by decide, ?_, ?_, by decide, by decide⟩
  · norm_num [listVariance, listAvg, typingIntervals, c5state, lastN]
  · norm_num [listAvg, typingIntervals, c5state, lastN]

/-- Claim C5 amended: R3 and R4 are evaluated for every snapshot with
strictly more than 10 key samples (so 11 or more) and strictly more than 5
qualifying filtered deltas; under that gate, R3 fires exactly when the
filtered variance is below 100 and R4 exactly when the filtered mean is
below 50. A snapshot with exactly 10 key samples is not scored by R3/R4. -/
theorem c5_amended_gate (s : TelemetryState) (t : ℤ) (env : Env)
    (h1 : s.typingPatterns.length > 10) (h2 : (typingIntervals s).length > 5) :
    ("Unnaturally consistent typing pattern" ∈ (analyzeBehavior s t env).reasons ↔
      listVariance (typingIntervals s) < 100) ∧
    ("Superhuman typing speed detected" ∈ (analyzeBehavior s t env).reasons ↔
      listAvg (typingIntervals s) < 50) := by
  constructor
  · rw [mem_behaviorReasons]
    constructor
    · rintro (hx | hx | hx | hx | hx | hx)
      · rcases mouseCheck_mem_possible s _ hx with hh | hh <;> exact absurd hh (by decide)
      · exact (r3_iff_typingCheck s h1 h2).mp hx
      · exact absurd (speedCheck_mem_possible _ _ hx) (by decide)
      · exact absurd (focusCheck_mem_possible _ _ hx) (by decide)
      · exact absurd (webdriverCheck_mem_possible _ _ hx) (by decide)
      · exact absurd (headlessCheck_mem_possible _ _ hx) (by decide)
    · intro hlt
      exact Or.inr (Or.inl ((r3_iff_typingCheck s h1 h2).mpr hlt))
  · rw [mem_behaviorReasons]
    constructor
    · rintro (hx | hx | hx | hx | hx | hx)
      · rcases mouseCheck_mem_possible s _ hx with hh | hh <;> exact absurd hh (by decide)
      · exact (r4_iff_typingCheck s h1 h2).mp hx
      · exact absurd (speedCheck_mem_possible _ _ hx) (by decide)
      · exact absurd (focusCheck_mem_possible _ _ hx) (by decide)
      · exact absurd (webdriverCheck_mem_possible _ _ hx) (by decide)
      · exact absurd (headlessCheck_mem_possible _ _ hx) (by decide)
    · intro hlt
      exact Or.inr (Or.inl ((r4_iff_typingCheck s h1 h2).mpr hlt))

/-- Claim C5 amended witness: with 11 samples of delta 30 the gate holds. -/
theorem c5_amended_witness :
    (10 < c5stateB.typingPatterns.length ∧ 5 < (typingIntervals c5stateB).length) ∧
    (("Unnaturally consistent typing pattern" ∈
        (analyzeBehavior c5stateB 5000 benignEnv).reasons ↔
      listVariance (typingIntervals c5stateB) < 100) ∧
     ("Superhuman typing speed detected" ∈
        (analyzeBehavior c5stateB 5000 benignEnv).reasons ↔
      listAvg (typingIntervals c5stateB) < 50)) :=
  ⟨⟨by decide, by decide⟩,
   c5_amended_gate c5stateB 5000 benignEnv (by decide) (by decide)⟩

/-! Claim C6: the R2 average and its divisor. -/

/-- Claim C6 fails on the code: for five samples with consecutive Manhattan
distances [6, 6, 6, 6], the average of the consecutive distances is 6,
which is not below 5, yet the code emits R2 — it divides the sum by the
window size 5 (the first sample contributing a zero), giving 4.8 < 5. -/
theorem c6_counterexample :
    ¬ specAvgConsecutiveManhattan (lastN 20 c6state.mouseMovements) < 5 ∧
    "Unnatural mouse movement patterns" ∈
      (analyzeBehavior c6state 5000 benignEnv).reasons := by
  constructor
  · norm_num [specAvgConsecutiveManhattan, c6state, lastN, consecDistances]
  · have havg : avgVariation (lastN 20 c6state.mouseMovements) < 5 := by
      norm_num [avgVariation, c6state, lastN, consecutiveVariations, consecDistances]
    have h : ¬ (c6state.hasMouseMovement = false ∨ c6state.mouseMovements.length < 5) := by
      decide
    exact (mem_behaviorReasons c6state 5000 benignEnv _).mpr
      (Or.inl ((r2_iff_mouseCheck c6state h).mpr havg))

/-- Claim C6 amended: when R1 does not fire, R2 adds +20 with its reason
exactly when the sum of the consecutive Manhattan distances over the most
recent ≤ 20 samples, divided by the number of samples in that window (the
first sample contributing a zero distance), is strictly less than 5. -/
theorem c6_amended_r2_divisor (s : TelemetryState) (t : ℤ) (env : Env)
    (h : ¬ (s.hasMouseMovement = false ∨ s.mouseMovements.length < 5)) :
    "Unnatural mouse movement patterns" ∈ (analyzeBehavior s t env).reasons ↔
      avgVariation (lastN 20 s.mouseMovements) < 5 := by
  rw [mem_behaviorReasons]
  constructor
  · rintro (hx | hx | hx | hx | hx | hx)
    · exact (r2_iff_mouseCheck s h).mp hx
    · rcases typingCheck_mem_possible s _ hx with hh | hh <;> exact absurd hh (by decide)
    · exact absurd (speedCheck_mem_possible _ _ hx) (by decide)
    · exact absurd (focusCheck_mem_possible _ _ hx) (by decide)
    · exact absurd (webdriverCheck_mem_possible _ _ hx) (by decide)
    · exact absurd (headlessCheck_mem_possible _ _ hx) (by decide)
  · intro hlt
    exact Or.inl ((r2_iff_mouseCheck s h).mpr hlt)

/-- Claim C6 amended witness: the straight-line state satisfies the gate and
the equivalence. -/
theorem c6_amended_witness :
    ¬ (c6state.hasMouseMovement = false ∨ c6state.mouseMovements.length < 5) ∧
    ("Unnatural mouse movement patterns" ∈
        (analyzeBehavior c6state 5000 benignEnv).reasons ↔
      avgVariation (lastN 20 c6state.mouseMovements) < 5) :=
  ⟨by decide, c6_amended_r2_divisor c6state 5000 benignEnv (by decide)⟩

/-! Claim C7: the R4 mean boundary. -/

/-- Claim C7: under the R3/R4 gate, R4 fires with its reason exactly when
the filtered mean is strictly below 50 ms; a mean of exactly 50 does not
trigger R4. -/
theorem c7_r4_mean_boundary (s : TelemetryState) (t : ℤ) (env : Env)
    (h1 : s.typingPatterns.length > 10) (h2 : (typingIntervals s).length > 5) :
    "Superhuman typing speed detected" ∈ (analyzeBehavior s t env).reasons ↔
      listAvg (typingIntervals s) < 50 := by
  rw [mem_behaviorReasons]
  constructor
  · rintro (hx | hx | hx | hx | hx | hx)
    · rcases mouseCheck_mem_possible s _ hx with hh | hh <;> exact absurd hh (by decide)
    · exact (r4_iff_typingCheck s h1 h2).mp hx
    · exact absurd (speedCheck_mem_possible _ _ hx) (by decide)
    · exact absurd (focusCheck_mem_possible _ _ hx) (by decide)
    · exact absurd (webdriverCheck_mem_possible _ _ hx) (by decide)
    · exact absurd (headlessCheck_mem_possible _ _ hx) (by decide)
  · intro hlt
    exact Or.inr (Or.inl ((r4_iff_typingCheck s h1 h2).mpr hlt))

/-- Claim C7 witness: eleven key samples at exactly 50 ms spacing satisfy
the gate, their filtered mean is exactly 50, and R4 does not fire. -/
theorem c7_r4_mean_boundary_witness :
    (10 < c7state.typingPatterns.length ∧ 5 < (typingIntervals c7state).length) ∧
    listAvg (typingIntervals c7state) = 50 ∧
    "Superhuman typing speed detected" ∉
      (analyzeBehavior c7state 5000 benignEnv).reasons := by
  have havg : listAvg (typingIntervals c7state) = 50 := by
    norm_num [listAvg, typingIntervals, c7state, lastN]
  refine ⟨⟨by decide, by decide⟩, havg, fun hmem => ?_⟩
  have hlt := (c7_r4_mean_boundary c7state 5000 benignEnv (by decide) (by decide)).mp hmem
  rw [havg] at hlt
  exact absurd hlt (by norm_num)

/-! Claim C8: the fresh-session scenario. -/

/-- Claim C8: a fresh session scored before 2000 ms with no mouse samples,
no key samples and no focus events reports the three expected reasons,
scores at least 85, and is flagged as a bot. -/
theorem c8_fresh_session (s : TelemetryState) (t : ℤ) (env : Env)
    (h1 : s.mouseMovements = []) (h3 : s.typingPatterns = [])
    (h4 : s.focusEvents = 0) (h5 : t - s.formStartTime < 2000) :
    "No natural mouse movement detected" ∈ (analyzeBehavior s t env).reasons ∧
    "Form filled too quickly" ∈ (analyzeBehavior s t env).reasons ∧
    "Insufficient focus interactions" ∈ (analyzeBehavior s t env).reasons ∧
    85 ≤ (analyzeBehavior s t env).score ∧
    (analyzeBehavior s t env).isBot = true := by
  have hm : mouseCheck s = (30, ["No natural mouse movement detected"]) := by
    unfold mouseCheck
    rw [if_pos (Or.inr (by rw [h1]; decide))]
  have ht : typingCheck s = (0, []) := by
    unfold typingCheck
    rw [if_neg (by rw [h3]; decide)]
  have hsp : speedCheck (t - s.formStartTime) = (40, ["Form filled too quickly"]) := by
    unfold speedCheck
    rw [if_pos h5]
  have hf : focusCheck s.focusEvents = (15, ["Insufficient focus interactions"]) := by
    rw [h4]
    decide
  simp only [analyzeBehavior, behaviorScore, behaviorReasons, hm, ht, hsp, hf]
  rcases webdriverCheck_cases env with hw | hw <;>
    rcases headlessCheck_cases env with hh | hh <;>
    rw [hw, hh] <;> refine ⟨by decide, by decide, by decide, by decide, by decide⟩

/-- Claim C8 witness: the initial telemetry state scored at time 0 in a
benign environment. -/
theorem c8_fresh_session_witness :
    ((initTelemetry 0).mouseMovements = [] ∧ (initTelemetry 0).typingPatterns = [] ∧
     (initTelemetry 0).focusEvents = 0 ∧ (0 : ℤ) - (initTelemetry 0).formStartTime < 2000) ∧
    ("No natural mouse movement detected" ∈
        (analyzeBehavior (initTelemetry 0) 0 benignEnv).reasons ∧
     "Form filled too quickly" ∈ (analyzeBehavior (initTelemetry 0) 0 benignEnv).reasons ∧
     "Insufficient focus interactions" ∈
        (analyzeBehavior (initTelemetry 0) 0 benignEnv).reasons ∧
     85 ≤ (analyzeBehavior (initTelemetry 0) 0 benignEnv).score ∧
     (analyzeBehavior (initTelemetry 0) 0 benignEnv).isBot = true) :=
  ⟨⟨rfl, rfl, rfl, by decide⟩,
   c8_fresh_session (initTelemetry 0) 0 benignEnv rfl rfl rfl (by decide)⟩

end BotDetection
